import Mathlib

/-!
Shallow embedding of the real-time chat server in `src/server.js`
(Express + Socket.io + Mongoose). The embedding models:

* the Mongoose `User` and `Message` schemas (`server.js` lines 50-117),
* the in-memory connection registry `connectedUsers` (a JS `Map` from
  user id to `{socketId, username}`, line 353),
* the socket `authenticate` handler (lines 359-404),
* the socket `send-message` handler (lines 407-453),
* the socket `disconnect` handler (lines 477-502),
* the REST `POST /api/auth/login` handler's presence write (lines 230-233),
* the `SIGINT` shutdown sweep (lines 521-541).

Store I/O (Mongoose `save` / `findById` / `findByIdAndUpdate`) may fail;
each handler takes a boolean saying whether the store call succeeds, and
the failing case follows the corresponding JS `catch` branch. Timestamps
(`new Date()`) are modelled by the natural-number clock in the state.
Socket.io emissions are modelled as an explicit list of `Emit` records.
-/

namespace ChatServer

/-- A user document of the Mongoose `User` schema: `username`, `email`,
`isOnline` (default false), `lastSeen`. The password field is irrelevant
to the claims and omitted; `id` is Mongo's `_id`. -/
structure User where
  id : String
  username : String
  email : String
  isOnline : Bool
  lastSeen : Nat
deriving DecidableEq

/-- A message document of the Mongoose `Message` schema: `sender`,
`receiver`, `content` (trimmed, maxLength 1000), `messageType`
(enum `text`), `delivered` (default false), `read` (default false),
and the `timestamps: true` field `createdAt`. -/
structure Message where
  mid : Nat
  sender : String
  receiver : String
  content : String
  messageType : String
  delivered : Bool
  read : Bool
  createdAt : Nat
deriving DecidableEq

/-- A value of the `connectedUsers` map: `{ socketId, username }`
(`server.js` lines 377-380). -/
structure ConnEntry where
  socketId : Nat
  username : String
deriving DecidableEq

/-- The per-socket fields the handlers read and write:
`socket.id`, `socket.userId`, `socket.username`. A socket that has not
completed a successful handshake has `userId = none`. -/
structure SocketInfo where
  sid : Nat
  userId : Option String
  username : Option String
deriving DecidableEq

/-- Server state: the user store, the message store, the in-memory
`connectedUsers` registry (association list with JS `Map` semantics on
the user-id key), the server clock, and the next message id the store
will assign. -/
structure ServerState where
  users : List User
  messages : List Message
  connectedUsers : List (String × ConnEntry)
  clock : Nat
  nextMsgId : Nat
deriving DecidableEq

/-- `Map.get` on the registry. -/
def mapGet : List (String × ConnEntry) → String → Option ConnEntry
  | [], _ => none
  | p :: rest, k => if p.1 = k then some p.2 else mapGet rest k

/-- `Map.delete` on the registry: removes the entry with the key, a
no-op when absent. -/
def mapDelete : List (String × ConnEntry) → String → List (String × ConnEntry)
  | [], _ => []
  | p :: rest, k => if p.1 = k then mapDelete rest k else p :: mapDelete rest k

/-- `Map.set` on the registry: replaces any entry with the same key.
(The association list does not track JS `Map` insertion order; no claim
depends on iteration order.) -/
def mapSet (m : List (String × ConnEntry)) (k : String) (v : ConnEntry) :
    List (String × ConnEntry) :=
  (k, v) :: mapDelete m k

/-- `User.findById` on the user store (ids are unique). -/
def findUser : List User → String → Option User
  | [], _ => none
  | u :: rest, uid => if u.id = uid then some u else findUser rest uid

/-- Write back a modified user document, keyed by id. -/
def updateUser : List User → String → (User → User) → List User
  | [], _, _ => []
  | u :: rest, uid, f => (if u.id = uid then f u else u) :: updateUser rest uid f

/-- Where an emission goes: `socket.emit` to one socket,
`io.to(room).emit` to a room, or `socket.broadcast.emit` to everyone
except one socket. -/
inductive EmitTarget
  | sock (sid : Nat)
  | room (name : String)
  | broadcastExcept (sid : Nat)
deriving DecidableEq

/-- Emission payloads used by the handlers. -/
inductive Payload
  | text (s : String)
  | message (m : Message)
  | userPresence (userId username : String)
  | authedUser (id username email : String)
deriving DecidableEq

/-- One Socket.io emission: target, event name, payload. -/
structure Emit where
  target : EmitTarget
  event : String
  payload : Payload
deriving DecidableEq

/-- An observable action of the `send-message` handler, in program
order: persisting a message to the store, or emitting an event. -/
inductive Action
  | persist (m : Message)
  | emit (e : Emit)
deriving DecidableEq

/-- JS truthiness of an optional string: `!x` is true when the value is
absent or the empty string. -/
def jsFalsy : Option String → Bool
  | none => true
  | some s => s == ""

/-- Drop leading whitespace characters. -/
def trimLeftChars : List Char → List Char
  | [] => []
  | c :: cs => if c.isWhitespace then trimLeftChars cs else c :: cs

/-- JS `String.prototype.trim`: strip whitespace from both ends. -/
def jsTrim (s : String) : String :=
  ⟨(trimLeftChars (trimLeftChars s.data.reverse).reverse)⟩

/-- Outcome of `jwt.verify` followed by the user lookup, as seen by the
`authenticate` handler: `jwt.verify` throws on malformed and on expired
tokens (both reach the same `catch`), or yields the token's `userId`. -/
inductive AuthInput
  | malformed
  | expired
  | validTok (userId : String)
deriving DecidableEq

/-- The socket `authenticate` handler (`server.js` lines 359-404).
On a verified token whose user exists: set `socket.userId` and
`socket.username`, join the user room, set `isOnline = true` and
`lastSeen = now`, save, register in `connectedUsers`, emit
`authenticated` to the socket and broadcast `user-online`. On an
unknown user: emit `authentication-error "User not found"`. On a
`jwt.verify` throw, or a store failure (`storeOk = false`, the `catch`
branch): emit `authentication-error "Invalid token"`; note the socket's
`userId`/`username` were already assigned before the failing `save`. -/
def authHandler (st : ServerState) (sock : SocketInfo) (input : AuthInput)
    (storeOk : Bool) : ServerState × SocketInfo × List Emit :=
  match input with
  | .malformed =>
      (st, sock, [⟨.sock sock.sid, "authentication-error", .text "Invalid token"⟩])
  | .expired =>
      (st, sock, [⟨.sock sock.sid, "authentication-error", .text "Invalid token"⟩])
  | .validTok uid =>
      match findUser st.users uid with
      | none =>
          (st, sock, [⟨.sock sock.sid, "authentication-error", .text "User not found"⟩])
      | some user =>
          let sock' : SocketInfo :=
            { sock with userId := some uid, username := some user.username }
          if storeOk then
            ({ st with
                users := updateUser st.users uid
                  (fun u => { u with isOnline := true, lastSeen := st.clock }),
                connectedUsers := mapSet st.connectedUsers uid ⟨sock.sid, user.username⟩ },
             sock',
             [⟨.sock sock.sid, "authenticated", .authedUser user.id user.username user.email⟩,
              ⟨.broadcastExcept sock.sid, "user-online", .userPresence user.id user.username⟩])
          else
            (st, sock',
             [⟨.sock sock.sid, "authentication-error", .text "Invalid token"⟩])

/-- The emissions of the `authenticate` handler. -/
def authEmits (st : ServerState) (sock : SocketInfo) (input : AuthInput)
    (storeOk : Bool) : List Emit :=
  (authHandler st sock input storeOk).2.2

/-- The socket `send-message` handler (`server.js` lines 407-453), as
the new state plus the ordered list of store/emit actions it performs.
Checks, in program order: `socket.userId` set; `receiverId`, `content`
and `content.trim()` truthy; `messageType === 'text'` (defaulted to
`'text'` when absent). Then `message.save()` — which enforces the
schema's `maxLength: 1000` on the trimmed content and fails when the
store is down — followed by `receive-message` to the receiver's room
and `message-sent` to the sender's socket. Any save failure reaches the
`catch`, which emits `error "Failed to send message"`. -/
def sendMessageHandler (st : ServerState) (sock : SocketInfo)
    (receiverId content messageType : Option String) (storeOk : Bool) :
    ServerState × List Action :=
  match sock.userId with
  | none => (st, [.emit ⟨.sock sock.sid, "error", .text "Not authenticated"⟩])
  | some senderId =>
      let mt := messageType.getD "text"
      if jsFalsy receiverId || jsFalsy content || (jsTrim (content.getD "") == "") then
        (st, [.emit ⟨.sock sock.sid, "error", .text "Invalid message data"⟩])
      else if ¬ mt = "text" then
        (st, [.emit ⟨.sock sock.sid, "error", .text "Only text messages allowed"⟩])
      else
        let c := jsTrim (content.getD "")
        if storeOk ∧ c.length ≤ 1000 then
          let m : Message :=
            ⟨st.nextMsgId, senderId, receiverId.getD "", c, "text", false, false, st.clock⟩
          ({ st with messages := st.messages ++ [m], nextMsgId := st.nextMsgId + 1 },
           [.persist m,
            .emit ⟨.room ("user_" ++ receiverId.getD ""), "receive-message", .message m⟩,
            .emit ⟨.sock sock.sid, "message-sent", .message m⟩])
        else
          (st, [.emit ⟨.sock sock.sid, "error", .text "Failed to send message"⟩])

/-- The socket `disconnect` handler (`server.js` lines 477-502). Only
acts when `socket.userId` is set: look the user up, set
`isOnline = false` and `lastSeen = now`, save, then
`connectedUsers.delete(socket.userId)` and broadcast `user-offline`.
The whole body sits in one `try`, so a store failure
(`storeOk = false`) skips the registry delete and the broadcast too. -/
def disconnectHandler (st : ServerState) (sock : SocketInfo) (storeOk : Bool) :
    ServerState × List Emit :=
  match sock.userId with
  | none => (st, [])
  | some uid =>
      if storeOk then
        ({ st with
            users := updateUser st.users uid
              (fun u => { u with isOnline := false, lastSeen := st.clock }),
            connectedUsers := mapDelete st.connectedUsers uid },
         [⟨.broadcastExcept sock.sid, "user-offline",
            .userPresence uid (sock.username.getD "")⟩])
      else (st, [])

/-- The presence write of the REST `POST /api/auth/login` handler
(`server.js` lines 207-251): after the credential check succeeds for a
user found by username or email, it sets `isOnline = true` and
`lastSeen = now` and saves — without touching `connectedUsers`. -/
def loginHandler (st : ServerState) (username : String) (passwordOk : Bool) :
    ServerState :=
  match st.users.find? (fun u => u.username == username || u.email == username) with
  | none => st
  | some user =>
      if passwordOk then
        { st with
            users := updateUser st.users user.id
              (fun u => { u with isOnline := true, lastSeen := st.clock }) }
      else st

/-- The `SIGINT` shutdown sweep (`server.js` lines 521-541): for each
entry of `connectedUsers`, `findByIdAndUpdate` the user to
`isOnline = false, lastSeen = now`; each iteration has its own
`try/catch`, so a store failure for one user (`storeFails uid = true`)
is logged and the loop continues with the remaining users. -/
def sigintSweep (users : List User) (registry : List (String × ConnEntry))
    (storeFails : String → Bool) (now : Nat) : List User :=
  match registry with
  | [] => users
  | p :: rest =>
      sigintSweep
        (if storeFails p.1 then users
         else updateUser users p.1 (fun u => { u with isOnline := false, lastSeen := now }))
        rest storeFails now

/-- The spec's §3 invariant: a stored `isOnline = true` implies a live
`connectedUsers` entry for that user. -/
def Inv (st : ServerState) : Prop :=
  ∀ u ∈ st.users, u.isOnline = true → (mapGet st.connectedUsers u.id).isSome = true

/-- One event handled on the persistent channel: an `authenticate`
handshake, a `disconnect`, or a `send-message` (each with the outcome
of its store calls). These are the connection-lifecycle and delivery
transitions of the socket subsystem. -/
inductive SockStep : ServerState → ServerState → Prop
  | auth (st : ServerState) (sock : SocketInfo) (input : AuthInput) (ok : Bool) :
      SockStep st (authHandler st sock input ok).1
  | disc (st : ServerState) (sock : SocketInfo) (ok : Bool) :
      SockStep st (disconnectHandler st sock ok).1
  | send (st : ServerState) (sock : SocketInfo) (r c mt : Option String) (ok : Bool) :
      SockStep st (sendMessageHandler st sock r c mt ok).1

/-- States reachable from a fresh server (empty registry, every stored
user offline) through socket events alone. -/
inductive ReachableSock : ServerState → Prop
  | init (us : List User) (clock : Nat) (h : ∀ u ∈ us, u.isOnline = false) :
      ReachableSock ⟨us, [], [], clock, 0⟩
  | step {st stNext : ServerState} :
      ReachableSock st → SockStep st stNext → ReachableSock stNext

/-- One event of the whole server: a socket event or a REST login. -/
inductive FullStep : ServerState → ServerState → Prop
  | sock {st stNext : ServerState} : SockStep st stNext → FullStep st stNext
  | login (st : ServerState) (username : String) (pw : Bool) :
      FullStep st (loginHandler st username pw)

/-- States reachable from a fresh server through socket events and
REST logins. -/
inductive ReachableFull : ServerState → Prop
  | init (us : List User) (clock : Nat) (h : ∀ u ∈ us, u.isOnline = false) :
      ReachableFull ⟨us, [], [], clock, 0⟩
  | step {st stNext : ServerState} :
      ReachableFull st → FullStep st stNext → ReachableFull stNext

/-- Distinct user-id keys in the registry (what JS `Map` guarantees). -/
def regNoDup (m : List (String × ConnEntry)) : Prop :=
  m.Pairwise (fun a b => ¬ a.1 = b.1)

/-- Is this action a fanout emission of the delivery pipeline? -/
def isFanout : Action → Bool
  | .emit e => e.event == "receive-message" || e.event == "message-sent"
  | _ => false

/-! Concrete scenario used by the counterexamples and witnesses: users
`u1` (alice) and `u2` (bob); `u1` authenticates on socket 1, then again
on socket 2 (the registry entry is silently replaced); `u2`
authenticates on socket 11. -/

/-- Stored user `u1`. -/
def aliceU : User := ⟨"u1", "alice", "alice@x", false, 0⟩

/-- Stored user `u2`. -/
def bobU : User := ⟨"u2", "bob", "bob@x", false, 0⟩

/-- Fresh server holding the two users, clock at 5. -/
def st0 : ServerState := ⟨[aliceU, bobU], [], [], 5, 0⟩

/-- `u1` authenticates on socket 1. -/
def authA := authHandler st0 ⟨1, none, none⟩ (.validTok "u1") true

/-- State after `u1` authenticated on socket 1. -/
def stA := authA.1

/-- Socket 1 after its successful handshake (`userId = some "u1"`). -/
def sockA := authA.2.1

/-- `u1` authenticates again on socket 2, replacing the registry entry. -/
def authB := authHandler stA ⟨2, none, none⟩ (.validTok "u1") true

/-- State after `u1` re-authenticated on socket 2. -/
def stB := authB.1

/-- Socket 2 after its successful handshake. -/
def sockB := authB.2.1

/-- State after the stale socket 1 disconnects while the registry entry
for `u1` points at socket 2. -/
def stC := (disconnectHandler stB sockA true).1

/-- State after socket 2 disconnects, evicting `u1`'s registry entry
while socket 1 still carries `userId = some "u1"`. -/
def stD := (disconnectHandler stB sockB true).1

/-- The stale-but-authenticated socket 1 sends to `u2` from `stD`. -/
def sendD := sendMessageHandler stD sockA (some "u2") (some "hello") none true

/-- `u2` authenticates on socket 11 (from `stA`, where `u1` is live). -/
def authC := authHandler stA ⟨11, none, none⟩ (.validTok "u2") true

/-- State with `u1` live on socket 1 and `u2` live on socket 11. -/
def stE := authC.1

/-- `u1` sends "hello" to the live `u2` from `stE`. -/
def sendE := sendMessageHandler stE sockA (some "u2") (some "hello") none true

/-- The message created by `sendE`. -/
def msgE : Message := ⟨0, "u1", "u2", "hello", "text", false, false, 5⟩

/-- State after a REST login of alice against the fresh server. -/
def stBad : ServerState := loginHandler ⟨[aliceU], [], [], 5, 0⟩ "alice" true

/-- A two-entry registry for the shutdown-sweep witness. -/
def reg2 : List (String × ConnEntry) := [("u1", ⟨1, "alice"⟩), ("u2", ⟨11, "bob"⟩)]

/-! Helper lemmas about the registry map and the user store. -/

/-- Reading the registry after a `Map.delete`. -/
theorem mapGet_mapDelete (m : List (String × ConnEntry)) (k kOther : String) :
    mapGet (mapDelete m k) kOther = if kOther = k then none else mapGet m kOther := by
  induction m with
  | nil => by_cases h : kOther = k <;> simp [mapGet, mapDelete, h]
  | cons p rest ih =>
    by_cases hp : p.1 = k
    · rw [show mapDelete (p :: rest) k = mapDelete rest k by simp [mapDelete, hp]]
      rw [ih]
      by_cases h : kOther = k
      · simp [h]
      · have hpo : ¬ p.1 = kOther := by rw [hp]; intro hh; exact h hh.symm
        simp [h, mapGet, hpo]
    · rw [show mapDelete (p :: rest) k = p :: mapDelete rest k by simp [mapDelete, hp]]
      by_cases hq : p.1 = kOther
      · have h : ¬ kOther = k := fun hh => hp (hq.trans hh)
        simp [mapGet, hq, h]
      · simp [mapGet, hq, ih]

/-- Reading the registry after a `Map.set`. -/
theorem mapGet_mapSet (m : List (String × ConnEntry)) (k kOther : String)
    (v : ConnEntry) :
    mapGet (mapSet m k v) kOther = if kOther = k then some v else mapGet m kOther := by
  by_cases h : kOther = k
  · simp [mapGet, mapSet, h]
  · have h2 : ¬ k = kOther := fun hh => h hh.symm
    simp [mapGet, mapSet, h, h2, mapGet_mapDelete m k kOther]

/-- `Map.delete` of an absent key is a no-op. -/
theorem mapDelete_absent (m : List (String × ConnEntry)) (k : String)
    (h : mapGet m k = none) : mapDelete m k = m := by
  induction m with
  | nil => rfl
  | cons p rest ih =>
    by_cases hp : p.1 = k
    · simp [mapGet, hp] at h
    · simp [mapGet, hp] at h
      simp [mapDelete, hp, ih h]

/-- Members of a deleted registry are members of the original with a
different key. -/
theorem mem_mapDelete (m : List (String × ConnEntry)) (k : String)
    (p : String × ConnEntry) (h : p ∈ mapDelete m k) : p ∈ m ∧ ¬ p.1 = k := by
  induction m with
  | nil => simp [mapDelete] at h
  | cons q rest ih =>
    by_cases hq : q.1 = k
    · simp only [mapDelete, if_pos hq] at h
      have := ih h
      exact ⟨List.mem_cons_of_mem q this.1, this.2⟩
    · simp only [mapDelete, if_neg hq] at h
      rcases List.mem_cons.mp h with heq | hmem
      · exact ⟨heq ▸ List.mem_cons_self q rest, heq ▸ hq⟩
      · have := ih hmem
        exact ⟨List.mem_cons_of_mem q this.1, this.2⟩

/-- `Map.delete` preserves distinctness of the keys. -/
theorem regNoDup_mapDelete (m : List (String × ConnEntry)) (k : String)
    (h : regNoDup m) : regNoDup (mapDelete m k) := by
  induction m with
  | nil => exact h
  | cons q rest ih =>
    rcases List.pairwise_cons.mp h with ⟨hq, hrest⟩
    by_cases hqk : q.1 = k
    · simpa [mapDelete, hqk] using ih hrest
    · rw [show mapDelete (q :: rest) k = q :: mapDelete rest k by simp [mapDelete, hqk]]
      exact List.pairwise_cons.mpr
        ⟨fun p hp => hq p (mem_mapDelete rest k p hp).1, ih hrest⟩

/-- `Map.set` keeps the registry keys distinct. -/
theorem regNoDup_mapSet (m : List (String × ConnEntry)) (k : String) (v : ConnEntry)
    (h : regNoDup m) : regNoDup (mapSet m k v) := by
  refine List.pairwise_cons.mpr ⟨?_, regNoDup_mapDelete m k h⟩
  intro p hp hk
  exact (mem_mapDelete m k p hp).2 hk.symm

/-- A found user matches the id it was looked up by. -/
theorem findUser_id (us : List User) (uid : String) (u : User)
    (h : findUser us uid = some u) : u.id = uid := by
  induction us with
  | nil => simp [findUser] at h
  | cons w rest ih =>
    by_cases hw : w.id = uid
    · simp only [findUser, if_pos hw, Option.some.injEq] at h
      exact h ▸ hw
    · simp only [findUser, if_neg hw] at h
      exact ih h

/-- Looking a user up after an id-preserving store write. -/
theorem findUser_updateUser (us : List User) (k kOther : String) (f : User → User)
    (hf : ∀ u, (f u).id = u.id) :
    findUser (updateUser us k f) kOther =
      (findUser us kOther).map (fun u => if u.id = k then f u else u) := by
  induction us with
  | nil => rfl
  | cons u rest ih =>
    by_cases hk : u.id = k
    · by_cases ho : u.id = kOther
      · simp [findUser, updateUser, hk, ho, hf u, hk.symm.trans ho]
      · have h1 : ¬ k = kOther := fun hh => ho (hk.trans hh)
        have h2 : ¬ (f u).id = kOther := by rw [hf u]; exact ho
        simp [findUser, updateUser, hk, ho, h1, h2, ih]
    · by_cases ho : u.id = kOther
      · have h1 : ¬ kOther = k := fun hh => hk (ho.trans hh)
        simp [findUser, updateUser, hk, ho, h1]
      · simp [findUser, updateUser, hk, ho, ih]

/-- Every member of an updated store comes from a member of the
original store, rewritten when its id matches. -/
theorem mem_updateUser (us : List User) (k : String) (f : User → User) (u : User)
    (h : u ∈ updateUser us k f) : ∃ w ∈ us, u = if w.id = k then f w else w := by
  induction us with
  | nil => simp [updateUser] at h
  | cons w rest ih =>
    simp only [updateUser] at h
    rcases List.mem_cons.mp h with heq | hmem
    · exact ⟨w, List.mem_cons_self w rest, heq⟩
    · obtain ⟨w2, hw2, he⟩ := ih hmem
      exact ⟨w2, List.mem_cons_of_mem w hw2, he⟩

/-- The `send-message` handler never touches the user store or the
registry: only the message store changes. -/
theorem send_frame (st : ServerState) (sock : SocketInfo)
    (r c mt : Option String) (ok : Bool) :
    (sendMessageHandler st sock r c mt ok).1.users = st.users ∧
    (sendMessageHandler st sock r c mt ok).1.connectedUsers = st.connectedUsers := by
  rcases hs : sock.userId with _ | senderId
  · simp [sendMessageHandler, hs]
  · simp only [sendMessageHandler, hs]
    split_ifs <;> exact ⟨rfl, rfl⟩

/-- `authenticate` preserves the presence invariant. -/
theorem inv_auth (st : ServerState) (sock : SocketInfo) (input : AuthInput)
    (ok : Bool) (h : Inv st) : Inv (authHandler st sock input ok).1 := by
  cases input with
  | malformed => exact h
  | expired => exact h
  | validTok uid =>
    cases hf : findUser st.users uid with
    | none => simpa [authHandler, hf] using h
    | some user =>
      cases ok with
      | false => simpa [authHandler, hf] using h
      | true =>
        intro u hu hon
        simp only [authHandler, hf, if_true] at hu hon ⊢
        obtain ⟨w, hw, he⟩ := mem_updateUser _ _ _ _ hu
        by_cases hid : w.id = uid
        · subst he
          rw [if_pos hid] at hon ⊢
          rw [mapGet_mapSet]
          simp [hid]
        · subst he
          rw [if_neg hid] at hon ⊢
          rw [mapGet_mapSet, if_neg hid]
          exact h w hw hon

/-- `disconnect` preserves the presence invariant. -/
theorem inv_disc (st : ServerState) (sock : SocketInfo) (ok : Bool)
    (h : Inv st) : Inv (disconnectHandler st sock ok).1 := by
  rcases hs : sock.userId with _ | uid
  · simpa [disconnectHandler, hs] using h
  · cases ok with
    | false => simpa [disconnectHandler, hs] using h
    | true =>
      intro u hu hon
      simp only [disconnectHandler, hs, if_true] at hu hon ⊢
      obtain ⟨w, hw, he⟩ := mem_updateUser _ _ _ _ hu
      by_cases hid : w.id = uid
      · subst he
        rw [if_pos hid] at hon
        simp at hon
      · subst he
        rw [if_neg hid] at hon ⊢
        rw [mapGet_mapDelete, if_neg hid]
        exact h w hw hon

/-- `send-message` preserves the presence invariant. -/
theorem inv_send (st : ServerState) (sock : SocketInfo)
    (r c mt : Option String) (ok : Bool) (h : Inv st) :
    Inv (sendMessageHandler st sock r c mt ok).1 := by
  intro u hu hon
  rw [(send_frame st sock r c mt ok).1] at hu
  rw [(send_frame st sock r c mt ok).2]
  exact h u hu hon

/-- One sweep step keeps an already-offline lookup result offline. -/
theorem sweep_preserves (reg : List (String × ConnEntry))
    (storeFails : String → Bool) (now : Nat) (uid : String) :
    ∀ us : List User,
      (∀ u : User, findUser us uid = some u → u.isOnline = false ∧ u.lastSeen = now) →
      ∀ u : User, findUser (sigintSweep us reg storeFails now) uid = some u →
        u.isOnline = false ∧ u.lastSeen = now := by
  induction reg with
  | nil => intro us h; exact h
  | cons p rest ih =>
    intro us h
    rw [show sigintSweep us (p :: rest) storeFails now =
        sigintSweep (if storeFails p.1 then us
          else updateUser us p.1 (fun u => { u with isOnline := false, lastSeen := now }))
          rest storeFails now from rfl]
    apply ih
    by_cases hfail : storeFails p.1
    · simpa [hfail] using h
    · rw [if_neg hfail]
      intro u hu
      rw [findUser_updateUser us p.1 uid
        (fun u => { u with isOnline := false, lastSeen := now }) (fun _ => rfl)] at hu
      rcases hfind : findUser us uid with _ | u0
      · rw [hfind] at hu
        simp at hu
      · rw [hfind] at hu
        simp only [Option.map_some'] at hu
        by_cases hid : u0.id = p.1
        · rw [if_pos hid] at hu
          injection hu with hu
          subst hu
          exact ⟨rfl, rfl⟩
        · rw [if_neg hid] at hu
          injection hu with hu
          subst hu
          exact h u0 hfind

/-! Claim theorems. -/

/-- Claim C1, counterexample: an accepted send from the authenticated
`u1` to `u2`, while `u2` holds a live registry entry, emits
`receive-message` to `u2`'s room with `delivered = false`, and the
persisted message also has `delivered = false`; the handler performs no
later store write, so the receiver does not observe `delivered = true`. -/
theorem C1_counterexample :
    (mapGet stE.connectedUsers "u2").isSome = true ∧
    sendE.2 = [Action.persist msgE,
      Action.emit ⟨.room "user_u2", "receive-message", .message msgE⟩,
      Action.emit ⟨.sock 1, "message-sent", .message msgE⟩] ∧
    msgE.delivered = false ∧
    sendE.1.messages = [msgE] := by
  decide

/-- Claim C1, amended: the `send-message` handler never sets
`delivered`; every message it persists, and every message payload it
emits (including the `receive-message` the receiver observes), carries
`delivered = false`, the schema default. -/
theorem C1_delivered_stays_false (st : ServerState) (sock : SocketInfo)
    (r c mt : Option String) (ok : Bool) (m : Message)
    (h : Action.persist m ∈ (sendMessageHandler st sock r c mt ok).2 ∨
      ∃ e : Emit, Action.emit e ∈ (sendMessageHandler st sock r c mt ok).2 ∧
        e.payload = .message m) :
    m.delivered = false := by
  rcases hs : sock.userId with _ | senderId <;>
    simp only [sendMessageHandler, hs, apply_ite Prod.snd] at h
  · rcases h with h | ⟨e, he, hp⟩
    · exact absurd (List.mem_singleton.mp h) (by simp)
    · injection List.mem_singleton.mp he with he2
      rw [he2] at hp
      exact absurd hp (by simp)
  · split_ifs at h with h1 h2 h3
    · rcases h with h | ⟨e, he, hp⟩
      · exact absurd (List.mem_singleton.mp h) (by simp)
      · injection List.mem_singleton.mp he with he2
        rw [he2] at hp
        exact absurd hp (by simp)
    · rcases h with h | ⟨e, he, hp⟩
      · rcases List.mem_cons.mp h with h | h
        · injection h with h
          subst h
          rfl
        · rcases List.mem_cons.mp h with h | h
          · exact absurd h (by simp)
          · exact absurd (List.mem_singleton.mp h) (by simp)
      · rcases List.mem_cons.mp he with he | he
        · exact absurd he (by simp)
        · rcases List.mem_cons.mp he with he | he
          · injection he with he2
            rw [he2] at hp
            have hp2 : Payload.message
                ⟨st.nextMsgId, senderId, r.getD "", jsTrim (c.getD ""),
                  "text", false, false, st.clock⟩ = Payload.message m := hp
            injection hp2 with hp2
            rw [← hp2]
          · injection List.mem_singleton.mp he with he2
            rw [he2] at hp
            have hp2 : Payload.message
                ⟨st.nextMsgId, senderId, r.getD "", jsTrim (c.getD ""),
                  "text", false, false, st.clock⟩ = Payload.message m := hp
            injection hp2 with hp2
            rw [← hp2]
    · rcases h with h | ⟨e, he, hp⟩
      · exact absurd (List.mem_singleton.mp h) (by simp)
      · injection List.mem_singleton.mp he with he2
        rw [he2] at hp
        exact absurd hp (by simp)
    · rcases h with h | ⟨e, he, hp⟩
      · exact absurd (List.mem_singleton.mp h) (by simp)
      · injection List.mem_singleton.mp he with he2
        rw [he2] at hp
        exact absurd hp (by simp)

/-- Claim C1, witness: the theorem applied to the concrete accepted
send of the scenario. -/
theorem C1_witness : msgE.delivered = false :=
  C1_delivered_stays_false stE sockA (some "u2") (some "hello") none true msgE
    (Or.inl (by decide))

/-- Claim C2, counterexample: the state reached from a fresh server by
one successful REST login is reachable in the full system, yet violates
the invariant — the login handler wrote `isOnline = true` while the
Connection Registry is empty. -/
theorem C2_counterexample : ReachableFull stBad ∧ ¬ Inv stBad := by
  constructor
  · exact ReachableFull.step (ReachableFull.init [aliceU] 5 (by decide))
      (FullStep.login ⟨[aliceU], [], [], 5, 0⟩ "alice" true)
  · intro hinv
    have hmem : (⟨"u1", "alice", "alice@x", true, 5⟩ : User) ∈ stBad.users := by decide
    have := hinv ⟨"u1", "alice", "alice@x", true, 5⟩ hmem rfl
    exact absurd this (by decide)

/-- Claim C2, amended: restricted to the socket connection-lifecycle
transitions (authenticate, disconnect, send) the invariant does hold:
in every state reachable through socket events alone, a stored
`isOnline = true` implies a live registry entry. The REST login
handler, however, also writes `isOnline = true` (without touching the
registry), so the claim's "the REST login handler does not set
`isOnline`" is false and the invariant can be broken by a REST login. -/
theorem C2_socket_lockstep (st : ServerState) (h : ReachableSock st) : Inv st := by
  induction h with
  | init us clock hoff =>
      intro u hu hon
      rw [hoff u hu] at hon
      cases hon
  | step hr hstep ih =>
      cases hstep with
      | auth sock input ok => exact inv_auth _ sock input ok ih
      | disc sock ok => exact inv_disc _ sock ok ih
      | send sock r c mt ok => exact inv_send _ sock r c mt ok ih

/-- Claim C2, witness: the invariant holds in the concrete reachable
state where `u1` authenticated on socket 1. -/
theorem C2_witness : Inv stA :=
  C2_socket_lockstep stA
    (ReachableSock.step (ReachableSock.init [aliceU, bobU] 5 (by decide))
      (SockStep.auth st0 ⟨1, none, none⟩ (.validTok "u1") true))

/-- Claim C3, counterexample: a token that verifies but whose subject
is unknown produces `authentication-error "User not found"`, while a
malformed token produces `authentication-error "Invalid token"` — the
replies differ, so the failure cause is distinguishable. -/
theorem C3_counterexample :
    ¬ authEmits st0 ⟨1, none, none⟩ (.validTok "ghost") true =
      authEmits st0 ⟨1, none, none⟩ .malformed true := by
  decide

/-- Claim C3, amended: expired and malformed tokens land in the same
`catch` and get identical replies, but an unknown-subject token gets a
distinct `"User not found"` reply, distinguishable from the other two. -/
theorem C3_unknown_subject_distinguishable (st : ServerState) (sock : SocketInfo)
    (ok : Bool) (uid : String) (h : findUser st.users uid = none) :
    authEmits st sock .expired ok = authEmits st sock .malformed ok ∧
    ¬ authEmits st sock (.validTok uid) ok = authEmits st sock .malformed ok := by
  constructor
  · rfl
  · simp only [authEmits, authHandler, h]
    intro hc
    have : "User not found" = "Invalid token" := by
      have := List.head_eq_of_cons_eq hc
      simpa using congrArg Emit.payload this
    exact absurd this (by decide)

/-- Claim C3, witness: the theorem applied at a concrete state with an
unknown subject `"ghost"`. -/
theorem C3_witness :
    authEmits st0 ⟨1, none, none⟩ .expired true =
      authEmits st0 ⟨1, none, none⟩ .malformed true ∧
    ¬ authEmits st0 ⟨1, none, none⟩ (.validTok "ghost") true =
      authEmits st0 ⟨1, none, none⟩ .malformed true :=
  C3_unknown_subject_distinguishable st0 ⟨1, none, none⟩ true "ghost" (by decide)

/-- Claim C4, counterexample: after `u1` re-authenticates on socket 2
and socket 2 disconnects, `u1`'s registry entry is gone, yet the stale
socket 1 still has `socket.userId` set, so its `send-message` persists
a message and emits `receive-message` — the handler guards on
`socket.userId`, not on the Connection Registry. -/
theorem C4_counterexample :
    mapGet stD.connectedUsers "u1" = none ∧
    sockA.userId = some "u1" ∧
    sendD.1.messages = [msgE] ∧
    Action.emit ⟨.room "user_u2", "receive-message", .message msgE⟩ ∈ sendD.2 := by
  decide

/-- Claim C4, amended: the guard is the per-socket authentication flag:
a `send-message` from a connection that never completed a successful
handshake (`socket.userId` unset) yields exactly one `error` emission
to that connection, persists nothing and emits no `receive-message`;
but a connection whose user's registry entry was evicted keeps its
`socket.userId` and can still trigger a fanout. -/
theorem C4_unauthenticated_rejected (st : ServerState) (sock : SocketInfo)
    (r c mt : Option String) (ok : Bool) (h : sock.userId = none) :
    sendMessageHandler st sock r c mt ok =
      (st, [Action.emit ⟨.sock sock.sid, "error", .text "Not authenticated"⟩]) := by
  simp [sendMessageHandler, h]

/-- Claim C4, witness: the theorem applied to a fresh, never
authenticated socket 7. -/
theorem C4_witness :
    sendMessageHandler st0 ⟨7, none, none⟩ (some "u2") (some "hi") none true =
      (st0, [Action.emit ⟨.sock 7, "error", .text "Not authenticated"⟩]) :=
  C4_unauthenticated_rejected st0 ⟨7, none, none⟩ (some "u2") (some "hi") none true rfl

/-- Claim C5: a send whose `receiverId` is JS-falsy, or whose content
trims to the empty string, or whose trimmed content exceeds the
1000-unit cap (the schema's `maxLength`, enforced at `save`), leaves
the state unchanged — no message is persisted — and produces exactly
one `error` emission to the sender. -/
theorem C5_validation_rejected (st : ServerState) (sock : SocketInfo)
    (r c mt : Option String) (ok : Bool)
    (h : jsFalsy r = true ∨ jsTrim (c.getD "") = "" ∨
      1000 < (jsTrim (c.getD "")).length) :
    ∃ s : String, sendMessageHandler st sock r c mt ok =
      (st, [Action.emit ⟨.sock sock.sid, "error", .text s⟩]) := by
  rcases hs : sock.userId with _ | senderId
  · exact ⟨"Not authenticated", by simp [sendMessageHandler, hs]⟩
  · simp only [sendMessageHandler, hs]
    split_ifs with h1 h2 h3
    · exact ⟨"Invalid message data", rfl⟩
    · exfalso
      rcases h with hr | htrim | hlen
      · simp [hr] at h1
      · simp [htrim] at h1
      · have := h3.2
        omega
    · exact ⟨"Failed to send message", rfl⟩
    · exact ⟨"Only text messages allowed", rfl⟩

/-- Claim C5, witness: the theorem applied to a whitespace-only
content from the authenticated socket 1. -/
theorem C5_witness :
    ∃ s : String, sendMessageHandler st0 sockA (some "u2") (some "   ") none true =
      (st0, [Action.emit ⟨.sock sockA.sid, "error", .text s⟩]) :=
  C5_validation_rejected st0 sockA (some "u2") (some "   ") none true
    (Or.inr (Or.inl (by decide)))

/-- Claim C6: every message the `send-message` handler persists carries
the server-clock `createdAt` (never a client-supplied timestamp); when
any fanout event (`receive-message` or `message-sent`) is emitted, the
trace starts with the persistence of that message, so persistence
precedes fanout; and when persistence fails the state is unchanged and
the only emission is a single `error` to the sender. -/
theorem C6_persist_before_fanout (st : ServerState) (sock : SocketInfo)
    (r c mt : Option String) (ok : Bool) :
    (∀ m : Message, Action.persist m ∈ (sendMessageHandler st sock r c mt ok).2 →
      m.createdAt = st.clock) ∧
    ((∃ a ∈ (sendMessageHandler st sock r c mt ok).2, isFanout a = true) →
      ∃ m : Message, ∃ rest : List Action,
        (sendMessageHandler st sock r c mt ok).2 = Action.persist m :: rest ∧
        m.createdAt = st.clock) ∧
    (ok = false → ∃ s : String, sendMessageHandler st sock r c mt ok =
      (st, [Action.emit ⟨.sock sock.sid, "error", .text s⟩])) := by
  rcases hs : sock.userId with _ | senderId
  · refine ⟨?_, ?_, ?_⟩ <;> simp only [sendMessageHandler, hs]
    · intro m hm
      simp at hm
    · rintro ⟨a, ha, hfan⟩
      rw [List.mem_singleton.mp ha] at hfan
      simp [isFanout] at hfan
    · intro _
      exact ⟨"Not authenticated", rfl⟩
  · refine ⟨?_, ?_, ?_⟩ <;>
      simp only [sendMessageHandler, hs, apply_ite Prod.snd] <;>
      split_ifs with h1 h2 h3
    · intro m hm
      simp at hm
    · intro m hm
      rcases List.mem_cons.mp hm with hm | hm
      · injection hm with hm
        subst hm
        rfl
      · rcases List.mem_cons.mp hm with hm | hm
        · exact absurd hm (by simp)
        · exact absurd (List.mem_singleton.mp hm) (by simp)
    · intro m hm
      simp at hm
    · intro m hm
      simp at hm
    · rintro ⟨a, ha, hfan⟩
      rw [List.mem_singleton.mp ha] at hfan
      simp [isFanout] at hfan
    · intro _
      exact ⟨_, _, rfl, rfl⟩
    · rintro ⟨a, ha, hfan⟩
      rw [List.mem_singleton.mp ha] at hfan
      simp [isFanout] at hfan
    · rintro ⟨a, ha, hfan⟩
      rw [List.mem_singleton.mp ha] at hfan
      simp [isFanout] at hfan
    · intro hok
      exact ⟨"Invalid message data", rfl⟩
    · intro hok
      subst hok
      exact absurd h3.1 (by decide)
    · intro hok
      exact ⟨"Failed to send message", rfl⟩
    · intro hok
      exact ⟨"Only text messages allowed", rfl⟩

/-- Claim C6, witness: the store-failure conjunct applied at a
concrete failing send. -/
theorem C6_witness :
    ∃ s : String, sendMessageHandler st0 sockA (some "u2") (some "hello") none false =
      (st0, [Action.emit ⟨.sock sockA.sid, "error", .text s⟩]) :=
  (C6_persist_before_fanout st0 sockA (some "u2") (some "hello") none false).2.2 rfl

/-- Claim C7, counterexample: `u1` authenticates on socket 1, then on
socket 2, so the registry entry for `u1` holds handle 2; when the stale
socket 1 disconnects, the handler deletes the entry keyed by its
`socket.userId` even though the entry's handle (2) does not match the
disconnecting connection (1) — eviction is not keyed by handle. -/
theorem C7_counterexample :
    mapGet stB.connectedUsers "u1" = some ⟨2, "alice"⟩ ∧
    sockA.sid = 1 ∧
    sockA.userId = some "u1" ∧
    mapGet stC.connectedUsers "u1" = none := by
  decide

/-- Claim C7, amended: eviction removes the registry entry keyed by the
disconnecting connection's authenticated user id, whatever handle that
entry stores; it is idempotent when the entry is already absent; and
admission keyed by user id keeps the registry keys distinct (at most
one live entry per user). -/
theorem C7_evict_by_user_id (st : ServerState) (sock : SocketInfo) (uid : String)
    (h : sock.userId = some uid) :
    mapGet (disconnectHandler st sock true).1.connectedUsers uid = none ∧
    (mapGet st.connectedUsers uid = none →
      (disconnectHandler st sock true).1.connectedUsers = st.connectedUsers) ∧
    (∀ (st2 : ServerState) (sock2 : SocketInfo) (inp : AuthInput) (ok : Bool),
      regNoDup st2.connectedUsers →
      regNoDup (authHandler st2 sock2 inp ok).1.connectedUsers) := by
  refine ⟨?_, ?_, ?_⟩
  · simp only [disconnectHandler, h, if_true]
    rw [mapGet_mapDelete]
    simp
  · intro habs
    simp only [disconnectHandler, h, if_true]
    exact mapDelete_absent st.connectedUsers uid habs
  · intro st2 sock2 inp ok hnd
    cases inp with
    | malformed => exact hnd
    | expired => exact hnd
    | validTok u2 =>
      cases hf : findUser st2.users u2 with
      | none => simpa [authHandler, hf] using hnd
      | some user =>
        cases ok with
        | false => simpa [authHandler, hf] using hnd
        | true =>
          simpa [authHandler, hf] using
            regNoDup_mapSet st2.connectedUsers u2 ⟨sock2.sid, user.username⟩ hnd

/-- Claim C7, witness: the eviction conjunct applied to the scenario
where socket 2 disconnects from `stB`. -/
theorem C7_witness :
    mapGet (disconnectHandler stB sockB true).1.connectedUsers "u1" = none :=
  (C7_evict_by_user_id stB sockB "u1" (by decide)).1

/-- Claim C8: on the termination signal, every user with a registry
entry whose store update does not fail ends with `isOnline = false` and
`lastSeen = now` in the swept store, regardless of failures for other
users (each iteration has its own `catch`, so one failure does not stop
the sweep). -/
theorem C8_sweep_offline (users : List User) (reg : List (String × ConnEntry))
    (storeFails : String → Bool) (now : Nat) (uid : String)
    (hmem : uid ∈ reg.map Prod.fst) (hok : storeFails uid = false) :
    ∀ u : User, findUser (sigintSweep users reg storeFails now) uid = some u →
      u.isOnline = false ∧ u.lastSeen = now := by
  revert hmem
  induction reg generalizing users with
  | nil =>
      intro hmem
      simp at hmem
  | cons p rest ih =>
      intro hmem
      rw [List.map_cons, List.mem_cons] at hmem
      rcases hmem with heq | hmem2
      · subst heq
        rw [show sigintSweep users (p :: rest) storeFails now =
            sigintSweep (updateUser users p.1
              (fun u => { u with isOnline := false, lastSeen := now }))
              rest storeFails now by
          simp [sigintSweep, hok]]
        apply sweep_preserves
        intro u hu
        rw [findUser_updateUser users p.1 p.1
          (fun u => { u with isOnline := false, lastSeen := now }) (fun _ => rfl)] at hu
        rcases hfind : findUser users p.1 with _ | u0
        · rw [hfind] at hu
          simp at hu
        · rw [hfind] at hu
          simp only [Option.map_some'] at hu
          rw [if_pos (findUser_id users p.1 u0 hfind)] at hu
          injection hu with hu
          subst hu
          exact ⟨rfl, rfl⟩
      · rw [show sigintSweep users (p :: rest) storeFails now =
            sigintSweep (if storeFails p.1 then users
              else updateUser users p.1
                (fun u => { u with isOnline := false, lastSeen := now }))
              rest storeFails now from rfl]
        exact ih _ hmem2

/-- Claim C8, witness: sweeping a registry with `u1` and `u2` while the
store update for `u1` fails still turns `u2` offline with the sweep's
timestamp. -/
theorem C8_witness :
    (⟨"u2", "bob", "bob@x", false, 9⟩ : User).isOnline = false ∧
    (⟨"u2", "bob", "bob@x", false, 9⟩ : User).lastSeen = 9 :=
  C8_sweep_offline
    [⟨"u1", "alice", "alice@x", true, 3⟩, ⟨"u2", "bob", "bob@x", true, 3⟩]
    reg2 (fun u => u == "u1") 9 "u2" (by decide) (by decide)
    ⟨"u2", "bob", "bob@x", false, 9⟩ (by decide)

/-- Claim C9: a `send-message` whose payload carries a `messageType`
other than `"text"` leaves the state unchanged — no message is
persisted — and produces exactly one `error` emission to the sender
(the text-only check runs before `new Message(...).save()`). -/
theorem C9_nontext_rejected (st : ServerState) (sock : SocketInfo)
    (r c : Option String) (t : String) (ok : Bool) (h : ¬ t = "text") :
    ∃ s : String, sendMessageHandler st sock r c (some t) ok =
      (st, [Action.emit ⟨.sock sock.sid, "error", .text s⟩]) := by
  rcases hs : sock.userId with _ | senderId
  · exact ⟨"Not authenticated", by simp [sendMessageHandler, hs]⟩
  · simp only [sendMessageHandler, hs, Option.getD_some]
    split_ifs with h1
    · exact ⟨"Invalid message data", rfl⟩
    · exact ⟨"Only text messages allowed", rfl⟩

/-- Claim C9, witness: an `"image"` send from the authenticated
socket 1 is rejected. -/
theorem C9_witness :
    ∃ s : String, sendMessageHandler st0 sockA (some "u2") (some "hi") (some "image") true =
      (st0, [Action.emit ⟨.sock sockA.sid, "error", .text s⟩]) :=
  C9_nontext_rejected st0 sockA (some "u2") (some "hi") "image" true (by decide)

/-- Claim C10: a disconnect of a connection that never completed a
successful handshake (`socket.userId` unset) is a complete no-op: the
state — store and registry — is unchanged and nothing is emitted. -/
theorem C10_unauth_disconnect_noop (st : ServerState) (sock : SocketInfo)
    (ok : Bool) (h : sock.userId = none) :
    disconnectHandler st sock ok = (st, []) := by
  simp [disconnectHandler, h]

/-- Claim C10, witness: the theorem applied to a never-authenticated
socket 3. -/
theorem C10_witness : disconnectHandler st0 ⟨3, none, none⟩ true = (st0, []) :=
  C10_unauth_disconnect_noop st0 ⟨3, none, none⟩ true rfl

end ChatServer
